import Mathlib

/-!
Verification of the transcription-pipeline orchestrator of the Whisper_app
repository, as a shallow embedding in Lean.

The embedding covers:
* `BaseWorker` (src/workers/workers_base.py): progress/status/error/finished
  signal emission, the cooperative cancellation flag, and the clamping of
  progress values (`update_progress`, `update_status`, `emit_error`,
  `emit_finished`, `is_cancelled`).
* `TranscriptionWorker.run` and `TranscriptionWorker._create_output_files`
  (src/workers/workers_transcription.py): the five-stage pipeline with its
  cancellation checks, progress milestones and output-file planning.
* `Translator.translate_text` / `Translator.translate_segments`
  (src/core/translator.py).
* `FileHandler.format_time`, the SRT cue content written by
  `FileHandler.create_srt`, and `FileHandler.get_output_path`
  (src/core/core_file_handler.py).

Modelling conventions:
* External collaborators (Whisper model loading and transcription, the
  summarizer, the Google-translate API call, and the success of each file
  write) are an oracle `Env`; their in-call status callbacks are abstracted
  away (they only ever emit status strings, never progress values).
* The worker runs on its own thread and the observer may request
  cancellation at any time.  Every primitive action of the worker consumes
  one clock tick; a cancellation request is a clock value `k` (`tc = some k`
  means every read of the flag performed at clock `≥ k` sees it set,
  `tc = none` means cancellation is never requested).  This models a request
  arriving between any two atomic actions of the worker.
* Python floats are modelled exactly: a `ℚ` value stands for the exact real
  value of the IEEE-754 binary64 double, and `fl` is round-to-nearest,
  ties-to-even (for results in the normal range, which covers all values
  arising here).  Python `%` on same-sign floats is exact and is modelled
  without rounding; `int()` truncates toward zero.
-/

namespace WhisperApp

/-! ## Exact rational arithmetic, kernel-computable

The `Rat` field operations of the ambient library are `@[irreducible]`, so
the arithmetic needed to model Python floats is expressed through
`Rat.divInt` and the `num`/`den` projections, which evaluate inside the
kernel.  The `q*_eq` bridge lemmas below prove that these are exactly the
ordinary field operations and order relations on `ℚ`. -/

/-- The rational `n` (integer embedded in `ℚ`). -/
def qOfInt (n : Int) : ℚ := Rat.divInt n 1

/-- Multiplication on `ℚ` (kernel-computable form). -/
def qMul (a b : ℚ) : ℚ := Rat.divInt (a.num * b.num) ((a.den : Int) * b.den)

/-- Subtraction on `ℚ` (kernel-computable form). -/
def qSub (a b : ℚ) : ℚ :=
  Rat.divInt (a.num * b.den - b.num * a.den) ((a.den : Int) * b.den)

/-- Division on `ℚ` (kernel-computable form). -/
def qDiv (a b : ℚ) : ℚ := Rat.divInt (a.num * b.den) ((a.den : Int) * b.num)

/-- `a < b` on `ℚ`, decided by cross-multiplication. -/
def qLt (a b : ℚ) : Bool := a.num * b.den < b.num * a.den

/-- `a ≤ b` on `ℚ`, decided by cross-multiplication. -/
def qLe (a b : ℚ) : Bool := a.num * b.den ≤ b.num * a.den

/-! ## Exact binary64 rounding model -/

/-- `2 ^ e` as a rational, for an integer (possibly negative) exponent. -/
def pow2 (e : Int) : ℚ :=
  if 0 ≤ e then qOfInt (2 ^ e.toNat) else Rat.divInt 1 (2 ^ (-e).toNat)

/-- Fuelled search for `⌊log₂ q⌋` of a positive rational (fuel covers the
whole binary64 range). -/
def log2floorAux : Nat → ℚ → Int
  | 0, _ => 0
  | f + 1, q =>
    if qLt q (qOfInt 1) then log2floorAux f (qMul q (qOfInt 2)) - 1
    else if qLe (qOfInt 2) q then log2floorAux f (qDiv q (qOfInt 2)) + 1
    else 0

/-- `⌊log₂ q⌋` for a positive rational in the binary64 range. -/
def log2floor (q : ℚ) : Int := log2floorAux 4000 q

/-- Round a nonnegative rational to the nearest integer, ties to even.  With
`f = ⌊m⌋`, the fractional part `m - f` is compared against `1/2` by
comparing `2·(m.num - f·m.den)` with `m.den`. -/
def roundHalfEven (m : ℚ) : Int :=
  let f := m.floor
  let r2 := 2 * (m.num - f * (m.den : Int))
  if r2 < (m.den : Int) then f
  else if (m.den : Int) < r2 then f + 1
  else if f % 2 = 0 then f else f + 1

/-- Round a positive rational to the nearest binary64 value (normal range:
53-bit significand). -/
def flPos (q : ℚ) : ℚ :=
  let e := log2floor q
  let scale := pow2 (52 - e)
  qDiv (qOfInt (roundHalfEven (qMul q scale))) scale

/-- Round a rational to the nearest binary64 value (ties to even; normal
range only, which covers every value arising in `format_time`). -/
def fl (q : ℚ) : ℚ :=
  if q.num = 0 then 0 else if q.num < 0 then -flPos (-q) else flPos q

/-- The binary64 value of a decimal float literal `num / den` appearing in
the Python source or in a test input (e.g. `pyFloatLit 5999 1000` is the
double written `5.999`). -/
def pyFloatLit (num den : Int) : ℚ := fl (Rat.divInt num den)

/-- Python `int()` on a float: truncation toward zero. -/
def pyInt (q : ℚ) : Int := if 0 ≤ q.num then q.floor else q.ceil

/-- Python `%` on floats with nonnegative operands: the exact remainder
`x - y·⌊x/y⌋` (IEEE `fmod` is exact, so no rounding step is needed). -/
def pyMod (x y : ℚ) : ℚ := qSub x (qMul y (qOfInt (qDiv x y).floor))

/-! ## FileHandler.format_time and the SRT cue content -/

/-- Zero-pad the decimal representation of a natural number to `w` digits
(Python `f"{n:02d}"` / `f"{n:03d}"` for nonnegative `n`). -/
def padZeroNat (w : Nat) (n : Nat) : String :=
  let s := toString n
  String.mk (List.replicate (w - s.length) '0') ++ s

/-- Zero-pad an integer (Python zero-padding puts the sign first). -/
def padZero (w : Nat) (n : Int) : String :=
  if n < 0 then "-" ++ padZeroNat (w - 1) (-n).toNat else padZeroNat w n.toNat

/-- `FileHandler.format_time` (src/core/core_file_handler.py): convert float
seconds to `HH:MM:SS,mmm`, with every float operation rounded as binary64.

Source:
  hours = int(seconds / 3600)
  minutes = int((seconds % 3600) / 60)
  secs = seconds % 60
  millisecs = int((secs - int(secs)) * 1000)
  return f"{hours:02d}:{minutes:02d}:{int(secs):02d},{millisecs:03d}" -/
def format_time (seconds : ℚ) : String :=
  let hours := pyInt (fl (qDiv seconds (qOfInt 3600)))
  let minutes := pyInt (fl (qDiv (pyMod seconds (qOfInt 3600)) (qOfInt 60)))
  let secs := pyMod seconds (qOfInt 60)
  let millisecs := pyInt (fl (qMul (fl (qSub secs (qOfInt (pyInt secs)))) (qOfInt 1000)))
  padZero 2 hours ++ ":" ++ padZero 2 minutes ++ ":" ++ padZero 2 (pyInt secs)
    ++ "," ++ padZero 3 millisecs

/-- Python `str.strip()`: remove leading and trailing whitespace. -/
def pyStrip (s : String) : String :=
  String.mk (((s.data.dropWhile Char.isWhitespace).reverse.dropWhile Char.isWhitespace).reverse)

/-- A transcription segment (timed span of text).  The rational fields hold
the exact values of the Python floats.  The source field `end` is a Lean
keyword, hence `stop`. -/
structure Segment where
  start : ℚ
  stop : ℚ
  text : String
deriving DecidableEq

/-- One SRT cue block as written by `FileHandler.create_srt` for segment
number `idx` (1-based): index line, time header, trimmed text, blank line. -/
def cueBlock (idx : Nat) (seg : Segment) : String :=
  toString idx ++ "\n" ++ format_time seg.start ++ " --> " ++ format_time seg.stop
    ++ "\n" ++ pyStrip seg.text ++ "\n\n"

/-- The cue blocks of `FileHandler.create_srt`, numbering from `i`. -/
def srtCues (i : Nat) : List Segment → List String
  | [] => []
  | seg :: rest => cueBlock i seg :: srtCues (i + 1) rest

/-- The exact file content written by `FileHandler.create_srt` (the loop
writes, for each segment `i` from 0: `f"{i+1}\n"`, the time header, the
stripped text and a blank line). -/
def srt_content (segments : List Segment) : String :=
  String.join (srtCues 1 segments)

/-! ## FileHandler.get_output_path (pathlib model)

`get_output_path` computes `str(Path(input).parent / f"{stem}{suffix}.{ext}")`.
The `Path` operations are modelled on POSIX paths: `parent` is everything
before the last `/` (`.` when there is no slash, `/` at the root), `stem` is
the final component without its last extension, and joining onto `.`
normalizes away the leading `./`. -/

/-- Split a character list at its LAST occurrence of `c`:
`some (before, after)`, or `none` when `c` does not occur. -/
def splitLastAux (c : Char) : List Char → Option (List Char × List Char)
  | [] => none
  | a :: rest =>
    match splitLastAux c rest with
    | some (pre, post) => some (a :: pre, post)
    | none => if a = c then some ([], rest) else none

/-- `Path(p).parent` for a POSIX path. -/
def pathParent (p : String) : String :=
  match splitLastAux '/' p.data with
  | none => "."
  | some ([], _) => "/"
  | some (pre, _) => String.mk pre

/-- `Path(p).name`: the final path component. -/
def pathName (p : String) : String :=
  match splitLastAux '/' p.data with
  | none => p
  | some (_, post) => String.mk post

/-- The stem of a file name: drop the last `.`-extension, except for a
leading dot or a trailing dot (pathlib keeps those). -/
def stemOfName (cs : List Char) : List Char :=
  match splitLastAux '.' cs with
  | none => cs
  | some ([], _) => cs
  | some (pre, post) => if post = [] then cs else pre

/-- `Path(p).stem`. -/
def pathStem (p : String) : String := String.mk (stemOfName (pathName p).data)

/-- `str(dir / name)` for a POSIX directory path. -/
def pathJoin (dir name : String) : String :=
  if dir = "." then name
  else if dir = "/" then "/" ++ name
  else dir ++ "/" ++ name

/-- `FileHandler.get_output_path` (src/core/core_file_handler.py):
`output_dir / f"{base_name}{suffix}.{extension}"` where `output_dir` and
`base_name` are the input file's parent directory and stem. -/
def get_output_path (input_file suffix extension : String) : String :=
  pathJoin (pathParent input_file) (pathStem input_file ++ suffix ++ "." ++ extension)

/-! ## BaseWorker: signals, clock and cooperative cancellation

Every atomic action of the worker consumes one clock tick.  A cancellation
request is modelled by `tc : Option Nat`: `some k` means every read of the
cancellation flag performed at clock `≥ k` observes it set (the request
arrived between the worker's `k`-th and `(k-1)`-th actions); `none` means
cancellation is never requested.  Once set the flag is never cleared, which
the model reflects by the reads being monotone in the clock. -/

/-- A collaborator or renderer invocation made by the worker. -/
inductive RCall
  | loadModel
  | transcribe
  | summarize
  | translateText (input : String)
  | translateSegments
  | renderTxt (path : String)
  | renderSrt (path : String)
  | renderPdf (path : String)
deriving DecidableEq

/-- The translation bundle stored in `result['translation']`; each field is
independently nullable. -/
structure TranslationBundle where
  text : Option String
  summary : Option String
  segments : Option (List Segment)
deriving DecidableEq

/-- `result` dict of `TranscriptionWorker`: transcript, optional summary,
optional translation bundle, list of created file paths. -/
structure TranscriptionResult where
  text : String
  segments : List Segment
deriving DecidableEq

/-- The worker's `self.result` dictionary. -/
structure RunResult where
  transcript : Option TranscriptionResult
  summary : Option String
  translation : Option TranslationBundle
  files : List String
deriving DecidableEq

/-- Payload of the `finished` signal: `None`, a message string, or the
result dictionary. -/
inductive Payload
  | nullPayload
  | message (s : String)
  | result (r : RunResult)
deriving DecidableEq

/-- An observable event of the run: a signal emission, a collaborator
invocation, or a file written to disk. -/
inductive Event
  | progress (n : Int)
  | status (s : String)
  | error (s : String)
  | finished (success : Bool) (payload : Payload)
  | call (c : RCall)
  | fileWrite (path : String)
deriving DecidableEq

/-- Worker state: the clock (number of atomic actions performed so far) and
the ordered trace of events produced. -/
structure WState where
  clock : Nat
  events : List Event
deriving DecidableEq

/-- `BaseWorker.is_cancelled`: a read of the cancellation flag at the
current clock. -/
def isCancelled (tc : Option Nat) (st : WState) : Bool :=
  match tc with
  | none => false
  | some k => k ≤ st.clock

/-- Advance the clock by one atomic action. -/
def tick (st : WState) : WState := { st with clock := st.clock + 1 }

/-- Append an event to the trace. -/
def emitEvt (e : Event) (st : WState) : WState := { st with events := st.events ++ [e] }

/-- `BaseWorker.update_progress`: if not cancelled, emit
`progress_updated.emit(max(0, min(100, value)))`. -/
def update_progress (tc : Option Nat) (value : Int) (st : WState) : WState :=
  tick (if isCancelled tc st then st else emitEvt (.progress (max 0 (min 100 value))) st)

/-- `BaseWorker.update_status`: if not cancelled, emit the status message. -/
def update_status (tc : Option Nat) (message : String) (st : WState) : WState :=
  tick (if isCancelled tc st then st else emitEvt (.status message) st)

/-- `BaseWorker.emit_error`: always emits (no cancellation gate). -/
def emit_error (message : String) (st : WState) : WState :=
  tick (emitEvt (.error message) st)

/-- `BaseWorker.emit_finished`: always emits the completion signal. -/
def emit_finished (success : Bool) (payload : Payload) (st : WState) : WState :=
  tick (emitEvt (.finished success payload) st)

/-- A collaborator invocation (one atomic action; records the call). -/
def collabCall (c : RCall) (st : WState) : WState := tick (emitEvt (.call c) st)

/-- Python truthiness of an optional string (`None` and `""` are falsy). -/
def strTruthy : Option String → Bool
  | none => false
  | some s => !(s == "")

/-- Python truthiness of an optional list (`None` and `[]` are falsy). -/
def listTruthy {α : Type} : Option (List α) → Bool
  | none => false
  | some l => !l.isEmpty

/-! ## Translator (src/core/translator.py)

The Google-translate API call is the oracle `api : String → Option String`
(`none` covers both an exception from the API and any failure); the target
and source languages are fixed per run and folded into the oracle.  The
in-call status callbacks and the rate-limit sleep after each batch do not
affect any value and are abstracted away. -/

/-- `Translator.translate_text`: empty or whitespace-only text yields `None`
without calling the API; otherwise the API result (or `None` on failure). -/
def translate_text (api : String → Option String) (text : String) : Option String :=
  if text = "" || pyStrip text = "" then none
  else api text

/-- The per-segment body of `Translator.translate_segments`: copy the
segment; when its text is truthy, translate the stripped text and replace it
only on success (on failure the original text is kept unchanged). -/
def translateSegment (api : String → Option String) (seg : Segment) : Segment :=
  if seg.text ≠ "" then
    match translate_text api (pyStrip seg.text) with
    | some t => { seg with text := t }
    | none => seg
  else seg

/-- `Translator.translate_segments`: `None` for an empty list, otherwise the
segments translated one by one in order. -/
def translate_segments (api : String → Option String) (segments : List Segment) :
    Option (List Segment) :=
  if segments = [] then none
  else some (segments.map (translateSegment api))

/-! ## The collaborator oracle and the job request -/

/-- Results of the external collaborators for one run: whether the Whisper
model loads, the transcription result, the summarizer's output on a given
text, the translate API, and whether each file write succeeds. -/
structure Env where
  loadOk : Bool
  transcribeRes : Option TranscriptionResult
  summarizeRes : String → Option String
  api : String → Option String
  renderTxtOk : String → Bool
  renderSrtOk : String → Bool
  renderPdfOk : String → Bool

/-- The constructor arguments of `TranscriptionWorker` (the JobRequest). -/
structure Config where
  file_path : String
  model_size : String
  language : Option String
  output_formats : List String
  enable_summary : Bool
  summary_ratio : ℚ
  enable_translation : Bool
  target_language : String

/-- The cancellation completion message
(`"작업이 취소되었습니다"` in the source). -/
def cancelMsg : String := "작업이 취소되었습니다"

/-! ## FileHandler renderers as worker actions

Each renderer (`create_txt`, `create_srt`, `create_pdf`) emits a start
status through the worker's `update_status` callback, attempts the write
(one atomic action; on success the file appears on disk), and emits a
completion or failure status.  Success/failure of the write comes from the
oracle.  `create_pdf`'s extra arguments (title, full text, summary) do not
influence success in the model and are carried for fidelity only. -/

/-- `FileHandler.create_txt` invoked by the worker on `text` and `path`. -/
def renderTxtStep (tc : Option Nat) (env : Env) (text : String) (path : String)
    (st : WState) : Bool × WState :=
  let st := collabCall (.renderTxt path) st
  let st := update_status tc ("TXT 파일 생성 중: " ++ path) st
  let ok := env.renderTxtOk path
  let st := tick (if ok then emitEvt (.fileWrite path) st else st)
  let st := update_status tc (if ok then "TXT 파일 생성 완료" else "TXT 파일 생성 실패") st
  (ok, st)

/-- `FileHandler.create_srt` invoked by the worker on `segments` and `path`
(the content written on success is `srt_content segments`). -/
def renderSrtStep (tc : Option Nat) (env : Env) (segments : List Segment) (path : String)
    (st : WState) : Bool × WState :=
  let st := collabCall (.renderSrt path) st
  let st := update_status tc ("SRT 파일 생성 중: " ++ path) st
  let ok := env.renderSrtOk path
  let st := tick (if ok then emitEvt (.fileWrite path) st else st)
  let st := update_status tc (if ok then "SRT 파일 생성 완료" else "SRT 파일 생성 실패") st
  (ok, st)

/-- `FileHandler.create_pdf` invoked by the worker. -/
def renderPdfStep (tc : Option Nat) (env : Env) (segments : List Segment)
    (title : String) (full_text : Option String) (summary_text : Option String)
    (path : String) (st : WState) : Bool × WState :=
  let st := collabCall (.renderPdf path) st
  let st := update_status tc ("PDF 파일 생성 중: " ++ path) st
  let ok := env.renderPdfOk path
  let st := tick (if ok then emitEvt (.fileWrite path) st else st)
  let st := update_status tc (if ok then "PDF 파일 생성 완료" else "PDF 파일 생성 실패") st
  (ok, st)

/-- A conditional TXT render guarded by Python truthiness of the data
(`if summary_text: ...` etc. in `_create_output_files`). -/
def condRenderTxt (tc : Option Nat) (env : Env) (data : Option String) (path : String)
    (acc : List String × WState) : List String × WState :=
  match data with
  | some s =>
    if s = "" then acc
    else
      let r := renderTxtStep tc env s path acc.2
      (acc.1 ++ (if r.1 then [path] else []), r.2)
  | none => acc

/-- A conditional SRT render guarded by truthiness of the segment list. -/
def condRenderSrt (tc : Option Nat) (env : Env) (data : Option (List Segment)) (path : String)
    (acc : List String × WState) : List String × WState :=
  match data with
  | some l =>
    if l.isEmpty then acc
    else
      let r := renderSrtStep tc env l path acc.2
      (acc.1 ++ (if r.1 then [path] else []), r.2)
  | none => acc

/-- A conditional PDF render guarded by truthiness of the translated
segment list (`if translated_segments:` in the source). -/
def condRenderPdf (tc : Option Nat) (env : Env) (data : Option (List Segment))
    (title : String) (full_text : Option String) (summary_text : Option String)
    (path : String) (acc : List String × WState) : List String × WState :=
  match data with
  | some l =>
    if l.isEmpty then acc
    else
      let r := renderPdfStep tc env l title full_text summary_text path acc.2
      (acc.1 ++ (if r.1 then [path] else []), r.2)
  | none => acc

/-- The TXT group of `_create_output_files`: original transcript
unconditionally, then summary / translation / translated summary, each
gated on truthiness of its data. -/
def txtOutputs (tc : Option Nat) (env : Env) (cfg : Config) (transcript_text : String)
    (summary_text translated_text translated_summary : Option String)
    (acc : List String × WState) : List String × WState :=
  if cfg.output_formats.contains "txt" then
    let txt_file := get_output_path cfg.file_path "" "txt"
    let r := renderTxtStep tc env transcript_text txt_file acc.2
    let acc := (acc.1 ++ (if r.1 then [txt_file] else []), r.2)
    let acc := condRenderTxt tc env summary_text
      (get_output_path cfg.file_path "_summary" "txt") acc
    let acc := condRenderTxt tc env translated_text
      (get_output_path cfg.file_path ("_" ++ cfg.target_language) "txt") acc
    condRenderTxt tc env translated_summary
      (get_output_path cfg.file_path ("_summary_" ++ cfg.target_language) "txt") acc
  else acc

/-- The SRT group of `_create_output_files`: original subtitles
unconditionally, translated subtitles gated on the translated segments. -/
def srtOutputs (tc : Option Nat) (env : Env) (cfg : Config) (segments : List Segment)
    (translated_segments : Option (List Segment))
    (acc : List String × WState) : List String × WState :=
  if cfg.output_formats.contains "srt" then
    let srt_file := get_output_path cfg.file_path "" "srt"
    let r := renderSrtStep tc env segments srt_file acc.2
    let acc := (acc.1 ++ (if r.1 then [srt_file] else []), r.2)
    condRenderSrt tc env translated_segments
      (get_output_path cfg.file_path ("_" ++ cfg.target_language) "srt") acc
  else acc

/-- The PDF group of `_create_output_files`: original composite document
unconditionally, translated document gated on the translated segments. -/
def pdfOutputs (tc : Option Nat) (env : Env) (cfg : Config)
    (transcript_text : String) (segments : List Segment)
    (summary_text translated_text translated_summary : Option String)
    (translated_segments : Option (List Segment))
    (acc : List String × WState) : List String × WState :=
  if cfg.output_formats.contains "pdf" then
    let base_name := pathStem cfg.file_path
    let pdf_file := get_output_path cfg.file_path "_transcript" "pdf"
    let r := renderPdfStep tc env segments (base_name ++ " - Transcript")
      (some transcript_text) summary_text pdf_file acc.2
    let acc := (acc.1 ++ (if r.1 then [pdf_file] else []), r.2)
    condRenderPdf tc env translated_segments
      (base_name ++ " - Transcript (" ++ cfg.target_language ++ ")")
      translated_text translated_summary
      (get_output_path cfg.file_path ("_transcript_" ++ cfg.target_language) "pdf") acc
  else acc

/-- `TranscriptionWorker._create_output_files`
(src/workers/workers_transcription.py): for each requested format group, the
original variant is rendered unconditionally and the derived variants only
when their data is truthy; each successful render appends its path to the
returned list. -/
def create_output_files (tc : Option Nat) (env : Env) (cfg : Config)
    (transcript_text : String) (segments : List Segment)
    (summary_text translated_text translated_summary : Option String)
    (translated_segments : Option (List Segment)) (st : WState) :
    List String × WState :=
  pdfOutputs tc env cfg transcript_text segments summary_text translated_text
    translated_summary translated_segments
    (srtOutputs tc env cfg segments translated_segments
      (txtOutputs tc env cfg transcript_text summary_text translated_text
        translated_summary ([], st)))

/-! ## TranscriptionWorker.run, stage by stage

The stages after transcription are factored into continuation functions that
mirror the straight-line structure of `run` with its early returns.  Every
`self.is_cancelled()` check in `run` reads the flag at the current clock and
consumes one tick. -/

/-- Stage 5 (file creation, 85% → 100%), from `update_status("파일 생성 중...")`
to the final `emit_finished`. -/
def outputStage (cfg : Config) (env : Env) (tc : Option Nat) (tr : TranscriptionResult)
    (summary_text translated_text translated_summary : Option String)
    (translated_segments : Option (List Segment)) (res : RunResult) (st : WState) : WState :=
  let st := update_status tc "파일 생성 중..." st
  let r := create_output_files tc env cfg tr.text tr.segments
    summary_text translated_text translated_summary translated_segments st
  let created_files := r.1
  let st := r.2
  let c := isCancelled tc st
  let st := tick st
  if c then emit_finished false (.message cancelMsg) st
  else
    let res := { res with files := created_files }
    let st := update_progress tc 100 st
    let st := update_status tc "작업 완료!" st
    emit_finished true (.result res) st

/-- Stage 4 (translation, 70% → 85%): up to three independent translation
calls, each failure non-fatal; the bundle is stored; then the cancellation
check, then the 85% milestone. -/
def translateStage (cfg : Config) (env : Env) (tc : Option Nat) (tr : TranscriptionResult)
    (summary_text : Option String) (res : RunResult) (st : WState) : WState :=
  if cfg.enable_translation then
    let st := update_status tc (cfg.target_language ++ "로 번역 중...") st
    let st := collabCall (.translateText tr.text) st
    let translated_text := translate_text env.api tr.text
    let p :=
      match summary_text with
      | some s =>
        if s = "" then ((none : Option String), st)
        else (translate_text env.api s, collabCall (.translateText s) st)
      | none => (none, st)
    let translated_summary := p.1
    let st := p.2
    let st := collabCall .translateSegments st
    let translated_segments := translate_segments env.api tr.segments
    let res := { res with
      translation := some (TranslationBundle.mk translated_text translated_summary
        translated_segments) }
    let c := isCancelled tc st
    let st := tick st
    if c then emit_finished false (.message cancelMsg) st
    else
      let st := update_progress tc 85 st
      outputStage cfg env tc tr summary_text translated_text translated_summary
        translated_segments res st
  else
    let st := update_progress tc 85 st
    outputStage cfg env tc tr summary_text none none none res st

/-- Stage 3 (summarization, 60% → 70%): the summarizer result is stored only
when truthy; the cancellation check sits inside the `if enable_summary`
block; then the 70% milestone. -/
def summarizeStage (cfg : Config) (env : Env) (tc : Option Nat) (tr : TranscriptionResult)
    (res : RunResult) (st : WState) : WState :=
  if cfg.enable_summary then
    let st := update_status tc "텍스트 요약 생성 중..." st
    let st := collabCall .summarize st
    let summary_text := env.summarizeRes tr.text
    let res := if strTruthy summary_text then { res with summary := summary_text } else res
    let c := isCancelled tc st
    let st := tick st
    if c then emit_finished false (.message cancelMsg) st
    else
      let st := update_progress tc 70 st
      translateStage cfg env tc tr summary_text res st
  else
    let st := update_progress tc 70 st
    translateStage cfg env tc tr none res st

/-- `TranscriptionWorker.run`: the five-stage pipeline.  Expected
collaborator failures in stages 1–2 produce an error notification plus a
failure completion; cancellation checks follow the source's placement. -/
def run (cfg : Config) (env : Env) (tc : Option Nat) : WState :=
  let st : WState := ⟨0, []⟩
  let st := update_progress tc 0 st
  let st := update_status tc "Whisper 모델 로드 중..." st
  let st := collabCall .loadModel st
  if !env.loadOk then
    emit_finished false .nullPayload (emit_error "모델 로드 실패" st)
  else
    let c := isCancelled tc st
    let st := tick st
    if c then emit_finished false (.message cancelMsg) st
    else
      let st := update_progress tc 10 st
      let st := update_status tc "음성 파일 전사 중..." st
      let st := collabCall .transcribe st
      match env.transcribeRes with
      | none => emit_finished false .nullPayload (emit_error "전사 실패" st)
      | some tr =>
        let c := isCancelled tc st
        let st := tick st
        if c then emit_finished false (.message cancelMsg) st
        else
          let res : RunResult :=
            { transcript := some tr, summary := none, translation := none, files := [] }
          let st := update_progress tc 60 st
          summarizeStage cfg env tc tr res st

/-! ## Derived specification-side definitions -/

/-- The clock index of the cancellation check in `run` that the source
performs last before stage 5 begins, for a run whose model load and
transcription succeed.  With neither optional stage enabled this is the
post-transcription check (clock 7); with summarization enabled it is the
check inside the summary block (clock 11); with translation enabled it is
the check at the end of the translation block (whose position depends on
whether a truthy summary was also translated). -/
def lastPreOutputCheck (cfg : Config) (env : Env) (tr : TranscriptionResult) : Nat :=
  if cfg.enable_translation then
    (if cfg.enable_summary then 12 else 9) +
      (if cfg.enable_summary && strTruthy (env.summarizeRes tr.text) then 5 else 4)
  else if cfg.enable_summary then 11 else 7

/-- The renderer-invocation plan of `_create_output_files`, written out as a
closed formula: per requested format group, the original variant
unconditionally, the derived variants gated on truthiness of their data,
with the suffix table ("", `_summary`, `_{lang}`, `_summary_{lang}`,
`_transcript`, `_transcript_{lang}`) and the extension per format. -/
def plannedRenderCalls (cfg : Config)
    (summary_text translated_text translated_summary : Option String)
    (translated_segments : Option (List Segment)) : List RCall :=
  (if cfg.output_formats.contains "txt" then
    [.renderTxt (get_output_path cfg.file_path "" "txt")]
    ++ (if strTruthy summary_text then
        [.renderTxt (get_output_path cfg.file_path "_summary" "txt")] else [])
    ++ (if strTruthy translated_text then
        [.renderTxt (get_output_path cfg.file_path ("_" ++ cfg.target_language) "txt")] else [])
    ++ (if strTruthy translated_summary then
        [.renderTxt (get_output_path cfg.file_path ("_summary_" ++ cfg.target_language) "txt")]
       else [])
  else [])
  ++ (if cfg.output_formats.contains "srt" then
    [.renderSrt (get_output_path cfg.file_path "" "srt")]
    ++ (if listTruthy translated_segments then
        [.renderSrt (get_output_path cfg.file_path ("_" ++ cfg.target_language) "srt")] else [])
  else [])
  ++ (if cfg.output_formats.contains "pdf" then
    [.renderPdf (get_output_path cfg.file_path "_transcript" "pdf")]
    ++ (if listTruthy translated_segments then
        [.renderPdf (get_output_path cfg.file_path ("_transcript_" ++ cfg.target_language) "pdf")]
       else [])
  else [])

/-! ## Trace projections -/

/-- The progress percentages of a trace, in emission order. -/
def progressValues (es : List Event) : List Int :=
  es.filterMap fun e => match e with | .progress n => some n | _ => none

/-- The paths of the files written to disk, in order. -/
def fileWrites (es : List Event) : List String :=
  es.filterMap fun e => match e with | .fileWrite p => some p | _ => none

/-- The collaborator/renderer invocations of a trace, in order. -/
def callsOf (es : List Event) : List RCall :=
  es.filterMap fun e => match e with | .call c => some c | _ => none

/-- A concrete JobRequest with all three formats, summary and translation
enabled (sample input for the output-planner claim). -/
def sampleC6cfg : Config :=
  ⟨"dir/talk.mp4", "base", none, ["txt", "srt", "pdf"], true, 0, true, "ko"⟩

/-- A concrete transcription result with two segments. -/
def sampleC6tr : TranscriptionResult :=
  ⟨"full text", [⟨0, 1, "hello"⟩, ⟨1, 2, "world"⟩]⟩

/-- A concrete collaborator oracle in which every call succeeds. -/
def sampleC6env : Env :=
  ⟨true, some sampleC6tr, fun _ => some "summary text", fun s => some ("K" ++ s),
    fun _ => true, fun _ => true, fun _ => true⟩

/-- The completion signals of a trace: the success flag and payload of each
`finished` emission, in order. -/
def finishedEvents (es : List Event) : List (Bool × Payload) :=
  es.filterMap fun e => match e with | .finished b p => some (b, p) | _ => none

/-- Every progress value of the trace lies in `[0, 100]`. -/
def ProgOk (es : List Event) : Prop :=
  ∀ n ∈ progressValues es, 0 ≤ n ∧ n ≤ 100

/-! ## Bridge lemmas: the kernel-computable rational operations are the
field operations of `ℚ` -/

theorem qOfInt_eq (n : Int) : qOfInt n = (n : ℚ) := by
  simp [qOfInt, Rat.divInt_eq_div]

theorem qMul_eq (a b : ℚ) : qMul a b = a * b := by
  rw [qMul, Rat.divInt_eq_div]
  push_cast
  conv_rhs => rw [← Rat.num_div_den a, ← Rat.num_div_den b]
  rw [div_mul_div_comm]

theorem qSub_eq (a b : ℚ) : qSub a b = a - b := by
  rw [qSub, Rat.divInt_eq_div]
  push_cast
  conv_rhs => rw [← Rat.num_div_den a, ← Rat.num_div_den b]
  rw [div_sub_div _ _ (by exact_mod_cast a.den_nz) (by exact_mod_cast b.den_nz)]
  ring_nf

theorem qDiv_eq (a b : ℚ) : qDiv a b = a / b := (Rat.div_def' a b).symm

theorem qLt_iff (a b : ℚ) : qLt a b = true ↔ a < b := by
  simp [qLt, Rat.lt_def]

theorem qLe_iff (a b : ℚ) : qLe a b = true ↔ a ≤ b := by
  simp [qLe, Rat.le_def]

/-! ## Small-step simp lemmas -/

@[simp] theorem tick_clock (st : WState) : (tick st).clock = st.clock + 1 := rfl

@[simp] theorem tick_events (st : WState) : (tick st).events = st.events := rfl

@[simp] theorem emitEvt_clock (e : Event) (st : WState) : (emitEvt e st).clock = st.clock := rfl

@[simp] theorem emitEvt_events (e : Event) (st : WState) :
    (emitEvt e st).events = st.events ++ [e] := rfl

@[simp] theorem isCancelled_none (st : WState) : isCancelled none st = false := rfl

theorem isCancelled_some (k : Nat) (st : WState) :
    isCancelled (some k) st = decide (k ≤ st.clock) := rfl

@[simp] theorem update_progress_clock (tc : Option Nat) (v : Int) (st : WState) :
    (update_progress tc v st).clock = st.clock + 1 := by
  by_cases h : isCancelled tc st <;> simp [update_progress, h]

theorem update_progress_events (tc : Option Nat) (v : Int) (st : WState) :
    (update_progress tc v st).events =
      st.events ++ (if isCancelled tc st then [] else [.progress (max 0 (min 100 v))]) := by
  by_cases h : isCancelled tc st <;> simp [update_progress, h]

@[simp] theorem update_status_clock (tc : Option Nat) (s : String) (st : WState) :
    (update_status tc s st).clock = st.clock + 1 := by
  by_cases h : isCancelled tc st <;> simp [update_status, h]

theorem update_status_events (tc : Option Nat) (s : String) (st : WState) :
    (update_status tc s st).events =
      st.events ++ (if isCancelled tc st then [] else [.status s]) := by
  by_cases h : isCancelled tc st <;> simp [update_status, h]

@[simp] theorem collabCall_clock (c : RCall) (st : WState) :
    (collabCall c st).clock = st.clock + 1 := rfl

@[simp] theorem collabCall_events (c : RCall) (st : WState) :
    (collabCall c st).events = st.events ++ [.call c] := rfl

@[simp] theorem emit_error_events (m : String) (st : WState) :
    (emit_error m st).events = st.events ++ [.error m] := rfl

@[simp] theorem emit_finished_events (b : Bool) (p : Payload) (st : WState) :
    (emit_finished b p st).events = st.events ++ [.finished b p] := rfl

@[simp] theorem progressValues_nil : progressValues [] = [] := rfl

@[simp] theorem progressValues_append (a b : List Event) :
    progressValues (a ++ b) = progressValues a ++ progressValues b :=
  List.filterMap_append a b _

@[simp] theorem progressValues_progress (n : Int) (es : List Event) :
    progressValues (.progress n :: es) = n :: progressValues es := rfl

@[simp] theorem progressValues_status (s : String) (es : List Event) :
    progressValues (.status s :: es) = progressValues es := rfl

@[simp] theorem progressValues_error (s : String) (es : List Event) :
    progressValues (.error s :: es) = progressValues es := rfl

@[simp] theorem progressValues_finished (b : Bool) (p : Payload) (es : List Event) :
    progressValues (.finished b p :: es) = progressValues es := rfl

@[simp] theorem progressValues_call (c : RCall) (es : List Event) :
    progressValues (.call c :: es) = progressValues es := rfl

@[simp] theorem progressValues_fileWrite (p : String) (es : List Event) :
    progressValues (.fileWrite p :: es) = progressValues es := rfl

@[simp] theorem fileWrites_nil : fileWrites [] = [] := rfl

@[simp] theorem fileWrites_append (a b : List Event) :
    fileWrites (a ++ b) = fileWrites a ++ fileWrites b :=
  List.filterMap_append a b _

@[simp] theorem fileWrites_progress (n : Int) (es : List Event) :
    fileWrites (.progress n :: es) = fileWrites es := rfl

@[simp] theorem fileWrites_status (s : String) (es : List Event) :
    fileWrites (.status s :: es) = fileWrites es := rfl

@[simp] theorem fileWrites_error (s : String) (es : List Event) :
    fileWrites (.error s :: es) = fileWrites es := rfl

@[simp] theorem fileWrites_finished (b : Bool) (p : Payload) (es : List Event) :
    fileWrites (.finished b p :: es) = fileWrites es := rfl

@[simp] theorem fileWrites_call (c : RCall) (es : List Event) :
    fileWrites (.call c :: es) = fileWrites es := rfl

@[simp] theorem fileWrites_fileWrite (p : String) (es : List Event) :
    fileWrites (.fileWrite p :: es) = p :: fileWrites es := rfl

@[simp] theorem callsOf_nil : callsOf [] = [] := rfl

@[simp] theorem callsOf_append (a b : List Event) :
    callsOf (a ++ b) = callsOf a ++ callsOf b :=
  List.filterMap_append a b _

@[simp] theorem callsOf_progress (n : Int) (es : List Event) :
    callsOf (.progress n :: es) = callsOf es := rfl

@[simp] theorem callsOf_status (s : String) (es : List Event) :
    callsOf (.status s :: es) = callsOf es := rfl

@[simp] theorem callsOf_error (s : String) (es : List Event) :
    callsOf (.error s :: es) = callsOf es := rfl

@[simp] theorem callsOf_finished (b : Bool) (p : Payload) (es : List Event) :
    callsOf (.finished b p :: es) = callsOf es := rfl

@[simp] theorem callsOf_call (c : RCall) (es : List Event) :
    callsOf (.call c :: es) = c :: callsOf es := rfl

@[simp] theorem callsOf_fileWrite (p : String) (es : List Event) :
    callsOf (.fileWrite p :: es) = callsOf es := rfl

@[simp] theorem finishedEvents_nil : finishedEvents [] = [] := rfl

@[simp] theorem finishedEvents_append (a b : List Event) :
    finishedEvents (a ++ b) = finishedEvents a ++ finishedEvents b :=
  List.filterMap_append a b _

@[simp] theorem finishedEvents_progress (n : Int) (es : List Event) :
    finishedEvents (.progress n :: es) = finishedEvents es := rfl

@[simp] theorem finishedEvents_status (s : String) (es : List Event) :
    finishedEvents (.status s :: es) = finishedEvents es := rfl

@[simp] theorem finishedEvents_error (s : String) (es : List Event) :
    finishedEvents (.error s :: es) = finishedEvents es := rfl

@[simp] theorem finishedEvents_finished (b : Bool) (p : Payload) (es : List Event) :
    finishedEvents (.finished b p :: es) = (b, p) :: finishedEvents es := rfl

@[simp] theorem finishedEvents_call (c : RCall) (es : List Event) :
    finishedEvents (.call c :: es) = finishedEvents es := rfl

@[simp] theorem finishedEvents_fileWrite (p : String) (es : List Event) :
    finishedEvents (.fileWrite p :: es) = finishedEvents es := rfl

@[simp] theorem events_ite (c : Prop) [Decidable c] (s₁ s₂ : WState) :
    (if c then s₁ else s₂).events = if c then s₁.events else s₂.events :=
  apply_ite _ c s₁ s₂

@[simp] theorem progressValues_ite (c : Prop) [Decidable c] (a b : List Event) :
    progressValues (if c then a else b) =
      if c then progressValues a else progressValues b :=
  apply_ite _ c a b

@[simp] theorem fileWrites_ite (c : Prop) [Decidable c] (a b : List Event) :
    fileWrites (if c then a else b) = if c then fileWrites a else fileWrites b :=
  apply_ite _ c a b

@[simp] theorem callsOf_ite (c : Prop) [Decidable c] (a b : List Event) :
    callsOf (if c then a else b) = if c then callsOf a else callsOf b :=
  apply_ite _ c a b

@[simp] theorem finishedEvents_ite (c : Prop) [Decidable c] (a b : List Event) :
    finishedEvents (if c then a else b) =
      if c then finishedEvents a else finishedEvents b :=
  apply_ite _ c a b

/-! ## The renderers and the output planner emit no progress events -/

theorem pV_renderTxtStep (tc : Option Nat) (env : Env) (text p : String) (st : WState) :
    progressValues ((renderTxtStep tc env text p st).2).events = progressValues st.events := by
  simp [renderTxtStep, update_status_events]

theorem pV_renderSrtStep (tc : Option Nat) (env : Env) (segs : List Segment) (p : String)
    (st : WState) :
    progressValues ((renderSrtStep tc env segs p st).2).events = progressValues st.events := by
  simp [renderSrtStep, update_status_events]

theorem pV_renderPdfStep (tc : Option Nat) (env : Env) (segs : List Segment)
    (title : String) (ft sm : Option String) (p : String) (st : WState) :
    progressValues ((renderPdfStep tc env segs title ft sm p st).2).events =
      progressValues st.events := by
  simp [renderPdfStep, update_status_events]

theorem pV_condRenderTxt (tc : Option Nat) (env : Env) (data : Option String) (p : String)
    (acc : List String × WState) :
    progressValues ((condRenderTxt tc env data p acc).2).events =
      progressValues acc.2.events := by
  cases data with
  | none => rfl
  | some s =>
    by_cases h : s = "" <;> simp [condRenderTxt, h, pV_renderTxtStep]

theorem pV_condRenderSrt (tc : Option Nat) (env : Env) (data : Option (List Segment))
    (p : String) (acc : List String × WState) :
    progressValues ((condRenderSrt tc env data p acc).2).events =
      progressValues acc.2.events := by
  cases data with
  | none => rfl
  | some l =>
    by_cases h : l.isEmpty <;> simp [condRenderSrt, h, pV_renderSrtStep]

theorem pV_condRenderPdf (tc : Option Nat) (env : Env) (data : Option (List Segment))
    (title : String) (ft sm : Option String) (p : String) (acc : List String × WState) :
    progressValues ((condRenderPdf tc env data title ft sm p acc).2).events =
      progressValues acc.2.events := by
  cases data with
  | none => rfl
  | some l =>
    by_cases h : l.isEmpty <;> simp [condRenderPdf, h, pV_renderPdfStep]

theorem pV_txtOutputs (tc : Option Nat) (env : Env) (cfg : Config) (tt : String)
    (sm tr ts : Option String) (acc : List String × WState) :
    progressValues ((txtOutputs tc env cfg tt sm tr ts acc).2).events =
      progressValues acc.2.events := by
  by_cases h : "txt" ∈ cfg.output_formats <;>
    simp [txtOutputs, h, pV_condRenderTxt, pV_renderTxtStep]

theorem pV_srtOutputs (tc : Option Nat) (env : Env) (cfg : Config) (segs : List Segment)
    (tsegs : Option (List Segment)) (acc : List String × WState) :
    progressValues ((srtOutputs tc env cfg segs tsegs acc).2).events =
      progressValues acc.2.events := by
  by_cases h : "srt" ∈ cfg.output_formats <;>
    simp [srtOutputs, h, pV_condRenderSrt, pV_renderSrtStep]

theorem pV_pdfOutputs (tc : Option Nat) (env : Env) (cfg : Config) (tt : String)
    (segs : List Segment) (sm tr ts : Option String) (tsegs : Option (List Segment))
    (acc : List String × WState) :
    progressValues ((pdfOutputs tc env cfg tt segs sm tr ts tsegs acc).2).events =
      progressValues acc.2.events := by
  by_cases h : "pdf" ∈ cfg.output_formats <;>
    simp [pdfOutputs, h, pV_condRenderPdf, pV_renderPdfStep]

theorem pV_create_output_files (tc : Option Nat) (env : Env) (cfg : Config) (tt : String)
    (segs : List Segment) (sm tr ts : Option String) (tsegs : Option (List Segment))
    (st : WState) :
    progressValues ((create_output_files tc env cfg tt segs sm tr ts tsegs st).2).events =
      progressValues st.events := by
  simp [create_output_files, pV_pdfOutputs, pV_srtOutputs, pV_txtOutputs]

/-! ## Every progress value emitted anywhere in a run is within bounds -/

theorem ProgOk_nil : ProgOk [] := by
  intro n hn
  simp [progressValues] at hn

theorem ProgOk_append {a b : List Event} (ha : ProgOk a) (hb : ProgOk b) :
    ProgOk (a ++ b) := by
  intro n hn
  rw [progressValues_append, List.mem_append] at hn
  exact hn.elim (ha n) (hb n)

theorem ProgOk_of_pV_eq {a b : List Event} (h : progressValues a = progressValues b)
    (hb : ProgOk b) : ProgOk a := by
  intro n hn
  exact hb n (h ▸ hn)

theorem progOk_update_progress (tc : Option Nat) (v : Int) {st : WState}
    (h : ProgOk st.events) : ProgOk (update_progress tc v st).events := by
  rw [update_progress_events]
  refine ProgOk_append h ?_
  split
  · exact ProgOk_nil
  · intro n hn
    simp only [progressValues_progress, progressValues_nil, List.mem_singleton] at hn
    subst hn
    omega

theorem progOk_update_status (tc : Option Nat) (s : String) {st : WState}
    (h : ProgOk st.events) : ProgOk (update_status tc s st).events := by
  refine ProgOk_of_pV_eq ?_ h
  simp [update_status_events]

theorem progOk_collabCall (c : RCall) {st : WState} (h : ProgOk st.events) :
    ProgOk (collabCall c st).events := by
  refine ProgOk_of_pV_eq ?_ h
  simp

theorem progOk_emit_error (m : String) {st : WState} (h : ProgOk st.events) :
    ProgOk (emit_error m st).events := by
  refine ProgOk_of_pV_eq ?_ h
  simp

theorem progOk_emit_finished (b : Bool) (p : Payload) {st : WState} (h : ProgOk st.events) :
    ProgOk (emit_finished b p st).events := by
  refine ProgOk_of_pV_eq ?_ h
  simp

theorem progOk_tick {st : WState} (h : ProgOk st.events) : ProgOk (tick st).events := h

theorem progOk_create_output_files (tc : Option Nat) (env : Env) (cfg : Config)
    (tt : String) (segs : List Segment) (sm tr ts : Option String)
    (tsegs : Option (List Segment)) {st : WState} (h : ProgOk st.events) :
    ProgOk ((create_output_files tc env cfg tt segs sm tr ts tsegs st).2).events :=
  ProgOk_of_pV_eq (pV_create_output_files tc env cfg tt segs sm tr ts tsegs st) h

theorem progOk_outputStage (cfg : Config) (env : Env) (tc : Option Nat)
    (tr : TranscriptionResult) (sm trt tsm : Option String) (tsegs : Option (List Segment))
    (res : RunResult) {st : WState} (h : ProgOk st.events) :
    ProgOk (outputStage cfg env tc tr sm trt tsm tsegs res st).events := by
  unfold outputStage
  dsimp only
  split
  · exact progOk_emit_finished _ _ (progOk_tick (progOk_create_output_files _ _ _ _ _ _ _ _ _
      (progOk_update_status _ _ h)))
  · exact progOk_emit_finished _ _ (progOk_update_status _ _ (progOk_update_progress _ _
      (progOk_tick (progOk_create_output_files _ _ _ _ _ _ _ _ _
        (progOk_update_status _ _ h)))))

theorem progOk_translateStage (cfg : Config) (env : Env) (tc : Option Nat)
    (tr : TranscriptionResult) (sm : Option String) (res : RunResult) {st : WState}
    (h : ProgOk st.events) : ProgOk (translateStage cfg env tc tr sm res st).events := by
  unfold translateStage
  dsimp only
  split
  · have h1 : ProgOk (collabCall (.translateText tr.text)
        (update_status tc (cfg.target_language ++ "로 번역 중...") st)).events :=
      progOk_collabCall _ (progOk_update_status _ _ h)
    have h2 : ProgOk (match sm with
        | some s => if s = "" then ((none : Option String), collabCall (.translateText tr.text)
            (update_status tc (cfg.target_language ++ "로 번역 중...") st))
          else (translate_text env.api s, collabCall (.translateText s)
            (collabCall (.translateText tr.text)
              (update_status tc (cfg.target_language ++ "로 번역 중...") st)))
        | none => (none, collabCall (.translateText tr.text)
            (update_status tc (cfg.target_language ++ "로 번역 중...") st))).2.events := by
      cases sm with
      | none => exact h1
      | some s =>
        by_cases hs : s = ""
        · simp only [hs, if_pos rfl]
          exact h1
        · simp only [if_neg hs]
          exact progOk_collabCall _ h1
    split
    · exact progOk_emit_finished _ _ (progOk_tick (progOk_collabCall _ h2))
    · exact progOk_outputStage _ _ _ _ _ _ _ _ _
        (progOk_update_progress _ _ (progOk_tick (progOk_collabCall _ h2)))
  · exact progOk_outputStage _ _ _ _ _ _ _ _ _ (progOk_update_progress _ _ h)

theorem progOk_summarizeStage (cfg : Config) (env : Env) (tc : Option Nat)
    (tr : TranscriptionResult) (res : RunResult) {st : WState} (h : ProgOk st.events) :
    ProgOk (summarizeStage cfg env tc tr res st).events := by
  unfold summarizeStage
  dsimp only
  split
  · split
    · exact progOk_emit_finished _ _ (progOk_tick (progOk_collabCall _
        (progOk_update_status _ _ h)))
    · exact progOk_translateStage _ _ _ _ _ _ (progOk_update_progress _ _
        (progOk_tick (progOk_collabCall _ (progOk_update_status _ _ h))))
  · exact progOk_translateStage _ _ _ _ _ _ (progOk_update_progress _ _ h)

theorem progOk_run (cfg : Config) (env : Env) (tc : Option Nat) :
    ProgOk (run cfg env tc).events := by
  unfold run
  dsimp only
  have h0 : ProgOk (⟨0, []⟩ : WState).events := ProgOk_nil
  have h1 : ProgOk (collabCall .loadModel (update_status tc "Whisper 모델 로드 중..."
      (update_progress tc 0 ⟨0, []⟩))).events :=
    progOk_collabCall _ (progOk_update_status _ _ (progOk_update_progress _ _ h0))
  split
  · exact progOk_emit_finished _ _ (progOk_emit_error _ h1)
  · split
    · exact progOk_emit_finished _ _ (progOk_tick h1)
    · have h2 : ProgOk (collabCall .transcribe (update_status tc "음성 파일 전사 중..."
          (update_progress tc 10 (tick (collabCall .loadModel
            (update_status tc "Whisper 모델 로드 중..."
              (update_progress tc 0 ⟨0, []⟩))))))).events :=
        progOk_collabCall _ (progOk_update_status _ _ (progOk_update_progress _ _
          (progOk_tick h1)))
      split
      · exact progOk_emit_finished _ _ (progOk_emit_error _ h2)
      · split
        · exact progOk_emit_finished _ _ (progOk_tick h2)
        · exact progOk_summarizeStage _ _ _ _ _ (progOk_update_progress _ _ (progOk_tick h2))

/-! ## Claim C8 -/

/-- C8: every progress value emitted by `update_progress` is clamped into
`[0, 100]` (for every integer argument, including those below 0 or above
100), and every progress notification of every run of the pipeline carries
a value in `[0, 100]`. -/
theorem C8_progress_clamped :
    (∀ (tc : Option Nat) (v : Int) (st : WState) (n : Int),
      Event.progress n ∈ (update_progress tc v st).events →
      Event.progress n ∈ st.events ∨ (0 ≤ n ∧ n ≤ 100)) ∧
    (∀ (cfg : Config) (env : Env) (tc : Option Nat) (n : Int),
      n ∈ progressValues (run cfg env tc).events → 0 ≤ n ∧ n ≤ 100) := by
  constructor
  · intro tc v st n hn
    rw [update_progress_events] at hn
    rcases List.mem_append.mp hn with h | h
    · exact Or.inl h
    · right
      split at h
      · simp at h
      · simp only [List.mem_singleton, Event.progress.injEq] at h
        subst h
        omega
  · intro cfg env tc n hn
    exact progOk_run cfg env tc n hn

/-- Witness for C8: the clamped value of the out-of-range argument 150 in a
run trace, and the concrete progress values of a complete concrete run. -/
theorem C8_witness :
    (Event.progress 100 ∈ (update_progress none 150 (⟨0, []⟩ : WState)).events →
      Event.progress 100 ∈ (⟨0, []⟩ : WState).events ∨ (0 ≤ (100 : Int) ∧ (100 : Int) ≤ 100)) ∧
    ((100 : Int) ∈ progressValues (run ⟨"a/b.mp4", "base", none, ["txt"], false, 0, false, "ko"⟩
        ⟨true, some ⟨"hello", [⟨0, 1, "hi"⟩]⟩, fun _ => none, fun _ => none,
          fun _ => true, fun _ => true, fun _ => true⟩ none).events →
      (0 ≤ (100 : Int) ∧ (100 : Int) ≤ 100)) :=
  ⟨C8_progress_clamped.1 none 150 ⟨0, []⟩ 100,
    C8_progress_clamped.2 ⟨"a/b.mp4", "base", none, ["txt"], false, 0, false, "ko"⟩
      ⟨true, some ⟨"hello", [⟨0, 1, "hi"⟩]⟩, fun _ => none, fun _ => none,
        fun _ => true, fun _ => true, fun _ => true⟩ none 100⟩

/-! ## Claim C10 -/

/-- C10: translation of empty input yields null rather than empty output:
for every string that is empty or whitespace-only (its Python `strip()` is
empty), `translate_text` returns `None` for every possible API behaviour
(so without depending on the translation collaborator), and
`translate_segments` returns `None` on the empty segment sequence rather
than an empty sequence. -/
theorem C10_empty_translation_yields_none :
    (∀ (api : String → Option String) (text : String),
      pyStrip text = "" → translate_text api text = none) ∧
    (∀ api : String → Option String, translate_segments api [] = none) := by
  constructor
  · intro api text h
    simp [translate_text, h]
  · intro api
    simp [translate_segments]

/-- Witness for C10 at the concrete whitespace-only input `"  "`. -/
theorem C10_witness :
    pyStrip "  " = "" ∧
    translate_text (fun s => some s) "  " = none ∧
    translate_segments (fun s => some s) [] = none :=
  ⟨by decide, C10_empty_translation_yields_none.1 (fun s => some s) "  " (by decide),
    C10_empty_translation_yields_none.2 (fun s => some s)⟩

/-! ## Claim C9 -/

/-- C9: once the cancellation flag is observed set, the worker never emits
another progress or status notification: `update_progress` and
`update_status` emit nothing while cancelled, the cancelled state is
monotone in the clock (the flag is never cleared, so every later call is
also suppressed), while `emit_error` and `emit_finished` still deliver
their signals unconditionally. -/
theorem C9_cancellation_suppresses_progress_and_status :
    (∀ (tc : Option Nat) (st : WState) (v : Int) (s : String),
      isCancelled tc st = true →
      (update_progress tc v st).events = st.events ∧
      (update_status tc s st).events = st.events) ∧
    (∀ (tc : Option Nat) (st st' : WState),
      isCancelled tc st = true → st.clock ≤ st'.clock → isCancelled tc st' = true) ∧
    (∀ (m : String) (st : WState), (emit_error m st).events = st.events ++ [.error m]) ∧
    (∀ (b : Bool) (p : Payload) (st : WState),
      (emit_finished b p st).events = st.events ++ [.finished b p]) := by
  refine ⟨?_, ?_, fun m st => rfl, fun b p st => rfl⟩
  · intro tc st v s h
    constructor <;> simp [update_progress, update_status, h]
  · intro tc st st' h hclock
    cases tc with
    | none => simp [isCancelled] at h
    | some k =>
      simp only [isCancelled, decide_eq_true_eq] at h ⊢
      omega

/-- Witness for C9 at a concrete cancelled state (cancellation requested at
clock 0, worker at clock 0 and at a later clock 5). -/
theorem C9_witness :
    isCancelled (some 0) (⟨0, []⟩ : WState) = true ∧
    (update_progress (some 0) 50 (⟨0, []⟩ : WState)).events = (⟨0, []⟩ : WState).events ∧
    (update_status (some 0) "x" (⟨0, []⟩ : WState)).events = (⟨0, []⟩ : WState).events ∧
    isCancelled (some 0) (⟨5, []⟩ : WState) = true ∧
    (emit_error "e" (⟨0, []⟩ : WState)).events = (⟨0, []⟩ : WState).events ++ [.error "e"] :=
  ⟨by decide,
    (C9_cancellation_suppresses_progress_and_status.1 (some 0) ⟨0, []⟩ 50 "x" (by decide)).1,
    (C9_cancellation_suppresses_progress_and_status.1 (some 0) ⟨0, []⟩ 50 "x" (by decide)).2,
    C9_cancellation_suppresses_progress_and_status.2.1 (some 0) ⟨0, []⟩ ⟨5, []⟩
      (by decide) (by decide),
    C9_cancellation_suppresses_progress_and_status.2.2.1 "e" ⟨0, []⟩⟩

/-! ## Claim C4

`FileHandler.format_time` truncates the milliseconds of the *binary64*
value of the segment time.  The double written `5.999` is
`6754273541148901 / 2^50`, which is slightly below `5.999`; the fractional
part computed in double arithmetic is `998.9999999999997…`, so truncation
yields `998`, not the `999` asserted by the claim's example.  The claim is
therefore corrected: the cue structure and truncation rule hold as stated,
but the second cue of the example reads `00:00:05,998`. -/

/-- C4 counterexample: on the claim's own example list
`[{0.0, 2.5, "a"}, {2.5, 5.999, "b"}]` the renderer does NOT produce the
claimed second cue header `00:00:02,500 --> 00:00:05,999`. -/
theorem C4_counterexample :
    srt_content [⟨pyFloatLit 0 1, pyFloatLit 25 10, "a"⟩,
        ⟨pyFloatLit 25 10, pyFloatLit 5999 1000, "b"⟩] ≠
      "1\n00:00:00,000 --> 00:00:02,500\na\n\n2\n00:00:02,500 --> 00:00:05,999\nb\n\n" := by
  decide

/-- C4 (amended): the subtitle renderer writes one cue block per segment,
numbered from 1, each cue being the index line, the
`HH:MM:SS,mmm --> HH:MM:SS,mmm` header with milliseconds truncated from the
binary64 fractional second, the trimmed text, and a blank separator line;
on the example list the cues are `00:00:00,000 --> 00:00:02,500` / `a` and
`00:00:02,500 --> 00:00:05,998` / `b` (not `…,999`: the double `5.999` is
slightly below 5.999 and double arithmetic of the fraction truncates to
998). -/
theorem C4_srt_renderer :
    (∀ (k i : Nat) (segs : List Segment),
      (srtCues k segs)[i]? = (segs[i]?).map fun s => cueBlock (k + i) s) ∧
    srt_content [⟨pyFloatLit 0 1, pyFloatLit 25 10, "a"⟩,
        ⟨pyFloatLit 25 10, pyFloatLit 5999 1000, "b"⟩] =
      "1\n00:00:00,000 --> 00:00:02,500\na\n\n2\n00:00:02,500 --> 00:00:05,998\nb\n\n" := by
  constructor
  · intro k i segs
    induction segs generalizing k i with
    | nil => simp [srtCues]
    | cons s rest ih =>
      cases i with
      | zero => simp [srtCues]
      | succ j =>
        simp [srtCues, ih (k + 1) j, Nat.add_assoc, Nat.add_comm 1 j]
  · decide

/-! ## Claim C1

The claim fails on the code: the cancellation checks after stages 3 and 4
sit inside the `if enable_summary` / `if enable_translation` blocks, and no
check precedes stage 5.  When both optional stages are disabled, a
cancellation requested after the post-transcription check (the last check
before stage 5) is observed only *after* `_create_output_files` has already
written files: the run still ends with the cancellation completion, but
files exist on disk. -/

/-- C1 counterexample: summary and translation disabled, formats `["txt"]`,
all collaborators succeed, cancellation requested at clock 8 — after stage 2
completed (the post-transcription check at clock 7 read the flag as unset)
and before stage 5 ran (its first action is at clock 11).  The run ends with
the cancellation completion, yet one output file was written. -/
theorem C1_counterexample :
    finishedEvents (run ⟨"audio/test.mp4", "base", none, ["txt"], false, 0, false, "ko"⟩
        ⟨true, some ⟨"hello", [⟨0, 1, "hi"⟩]⟩, fun _ => none, fun _ => none,
          fun _ => true, fun _ => true, fun _ => true⟩ (some 8)).events =
      [(false, .message cancelMsg)] ∧
    fileWrites (run ⟨"audio/test.mp4", "base", none, ["txt"], false, 0, false, "ko"⟩
        ⟨true, some ⟨"hello", [⟨0, 1, "hi"⟩]⟩, fun _ => none, fun _ => none,
          fun _ => true, fun _ => true, fun _ => true⟩ (some 8)).events =
      ["audio/test.txt"] := by
  constructor <;> decide

/-- C1 (amended): a cancellation requested after stage 2 completes is
observed — and then yields exactly one completion, the cancellation
completion, with zero files written — only when the request arrives no
later than the last cancellation check preceding stage 5 (the
post-transcription check, the post-summarization check, or the
post-translation check, whichever the enabled stages make last).  A request
arriving after that check is only observed after stage 5 has run, which
still ends the run with the cancellation completion but may leave written
files on disk (see the counterexample). -/
theorem C1_cancel_after_stage2_before_stage5 :
    ∀ (cfg : Config) (env : Env) (tr : TranscriptionResult) (k : Nat),
      env.loadOk = true → env.transcribeRes = some tr →
      7 ≤ k → k ≤ lastPreOutputCheck cfg env tr →
      finishedEvents (run cfg env (some k)).events = [(false, .message cancelMsg)] ∧
      fileWrites (run cfg env (some k)).events = [] := by
  intro cfg env tr k hl htr hk1 hk2
  have f0 : ¬ (k ≤ 3) := by omega
  by_cases h7 : k ≤ 7
  · have hk : k = 7 := by omega
    subst hk
    simp [run, hl, htr, isCancelled, update_progress_events, update_status_events]
  · have f7 : ¬ (k ≤ 7) := h7
    unfold lastPreOutputCheck at hk2
    by_cases hT : cfg.enable_translation
    · rw [if_pos hT] at hk2
      by_cases hS : cfg.enable_summary
      · simp [hS] at hk2
        by_cases h11 : k ≤ 11
        · simp [run, summarizeStage, hl, htr, hS, f0, f7, h11, isCancelled,
            update_progress_events, update_status_events]
        · have f11 : ¬ (k ≤ 11) := h11
          rcases hsum : env.summarizeRes tr.text with _ | s
          · rw [hsum] at hk2
            norm_num [strTruthy] at hk2
            simp [run, summarizeStage, translateStage, hl, htr, hS, hT, hsum, strTruthy,
              f0, f7, f11, hk2, isCancelled, update_progress_events, update_status_events]
          · rw [hsum] at hk2
            by_cases hse : s = ""
            · subst hse
              norm_num [strTruthy] at hk2
              simp [run, summarizeStage, translateStage, hl, htr, hS, hT, hsum, strTruthy,
                f0, f7, f11, hk2, isCancelled, update_progress_events, update_status_events]
            · have hst : strTruthy (some s) = true := by simp [strTruthy, hse]
              simp [hst] at hk2
              simp [run, summarizeStage, translateStage, hl, htr, hS, hT, hsum, strTruthy,
                hse, f0, f7, f11, hk2, isCancelled, update_progress_events,
                update_status_events]
      · simp [hS] at hk2
        simp [run, summarizeStage, translateStage, hl, htr, hS, hT, f0, f7, hk2,
          isCancelled, update_progress_events, update_status_events]
    · rw [if_neg hT] at hk2
      by_cases hS : cfg.enable_summary
      · rw [if_pos hS] at hk2
        simp [run, summarizeStage, hl, htr, hS, hT, f0, f7, hk2, isCancelled,
          update_progress_events, update_status_events]
      · rw [if_neg hS] at hk2
        omega

/-- Witness for C1 (amended) at a concrete run cancelled at the
post-transcription check. -/
theorem C1_witness :
    (7 : Nat) ≤ 7 ∧
    7 ≤ lastPreOutputCheck ⟨"audio/test.mp4", "base", none, ["txt"], false, 0, false, "ko"⟩
      ⟨true, some ⟨"hello", [⟨0, 1, "hi"⟩]⟩, fun _ => none, fun _ => none,
        fun _ => true, fun _ => true, fun _ => true⟩ ⟨"hello", [⟨0, 1, "hi"⟩]⟩ ∧
    finishedEvents (run ⟨"audio/test.mp4", "base", none, ["txt"], false, 0, false, "ko"⟩
        ⟨true, some ⟨"hello", [⟨0, 1, "hi"⟩]⟩, fun _ => none, fun _ => none,
          fun _ => true, fun _ => true, fun _ => true⟩ (some 7)).events =
      [(false, .message cancelMsg)] ∧
    fileWrites (run ⟨"audio/test.mp4", "base", none, ["txt"], false, 0, false, "ko"⟩
        ⟨true, some ⟨"hello", [⟨0, 1, "hi"⟩]⟩, fun _ => none, fun _ => none,
          fun _ => true, fun _ => true, fun _ => true⟩ (some 7)).events = [] :=
  ⟨by decide, by decide,
    (C1_cancel_after_stage2_before_stage5 _ _ ⟨"hello", [⟨0, 1, "hi"⟩]⟩ 7
      rfl rfl (by decide) (by decide)).1,
    (C1_cancel_after_stage2_before_stage5 _ _ ⟨"hello", [⟨0, 1, "hi"⟩]⟩ 7
      rfl rfl (by decide) (by decide)).2⟩

/-! ## Claim C2 -/

/-- C2: for every valid JobRequest with summary and translation disabled and
no cancellation, when model load and transcription succeed, the progress
notifications of the run are exactly `0, 10, 60, 70, 85, 100` in that order
(strictly increasing, every milestone present, including those of the
skipped stages 3 and 4) — regardless of the requested formats and of
renderer success. -/
theorem C2_progress_milestones :
    ∀ (cfg : Config) (env : Env) (tr : TranscriptionResult),
      cfg.enable_summary = false → cfg.enable_translation = false →
      env.loadOk = true → env.transcribeRes = some tr →
      progressValues (run cfg env none).events = [0, 10, 60, 70, 85, 100] := by
  intro cfg env tr hs ht hl htr
  simp [run, summarizeStage, translateStage, outputStage, hs, ht, hl, htr,
    update_progress_events, update_status_events, pV_create_output_files]

/-- Witness for C2 at a concrete JobRequest and successful collaborators. -/
theorem C2_witness :
    (⟨"a/b.mp4", "base", none, ["txt", "srt"], false, 0, false, "ko"⟩ : Config).enable_summary
        = false ∧
    (⟨"a/b.mp4", "base", none, ["txt", "srt"], false, 0, false, "ko"⟩ : Config).enable_translation
        = false ∧
    progressValues (run ⟨"a/b.mp4", "base", none, ["txt", "srt"], false, 0, false, "ko"⟩
        ⟨true, some ⟨"hello", [⟨0, 1, "hi"⟩]⟩, fun _ => none, fun _ => none,
          fun _ => true, fun _ => true, fun _ => true⟩ none).events = [0, 10, 60, 70, 85, 100] :=
  ⟨rfl, rfl, C2_progress_milestones _ _ ⟨"hello", [⟨0, 1, "hi"⟩]⟩ rfl rfl rfl rfl⟩

/-! ## Claim C5 -/

/-- C5: when a required stage's collaborator returns its normal failure
indication (model load returns false, or transcription returns null), the
run emits an error notification describing the failure, then a failure
completion signal, and performs no work of any later stage: the full trace
is exactly the prefix up to the failing call followed by the error and the
failure completion — no summarization, translation, rendering or file write
occurs. -/
theorem C5_required_stage_failure_stops_run :
    ∀ (cfg : Config) (env : Env),
      (env.loadOk = false →
        (run cfg env none).events =
          [.progress 0, .status "Whisper 모델 로드 중...", .call .loadModel,
           .error "모델 로드 실패", .finished false .nullPayload]) ∧
      (env.loadOk = true → env.transcribeRes = none →
        (run cfg env none).events =
          [.progress 0, .status "Whisper 모델 로드 중...", .call .loadModel,
           .progress 10, .status "음성 파일 전사 중...", .call .transcribe,
           .error "전사 실패", .finished false .nullPayload]) := by
  intro cfg env
  constructor
  · intro h
    simp [run, h, update_progress_events, update_status_events]
  · intro hl htr
    simp [run, hl, htr, update_progress_events, update_status_events]

/-- Witness for C5: a concrete failing model load and a concrete failing
transcription. -/
theorem C5_witness :
    (run ⟨"a/b.mp4", "base", none, ["txt"], false, 0, false, "ko"⟩
        ⟨false, none, fun _ => none, fun _ => none,
          fun _ => true, fun _ => true, fun _ => true⟩ none).events =
      [.progress 0, .status "Whisper 모델 로드 중...", .call .loadModel,
       .error "모델 로드 실패", .finished false .nullPayload] ∧
    (run ⟨"a/b.mp4", "base", none, ["txt"], false, 0, false, "ko"⟩
        ⟨true, none, fun _ => none, fun _ => none,
          fun _ => true, fun _ => true, fun _ => true⟩ none).events =
      [.progress 0, .status "Whisper 모델 로드 중...", .call .loadModel,
       .progress 10, .status "음성 파일 전사 중...", .call .transcribe,
       .error "전사 실패", .finished false .nullPayload] :=
  ⟨(C5_required_stage_failure_stops_run _ _).1 rfl,
    (C5_required_stage_failure_stops_run _ _).2 rfl rfl⟩

/-! ## Injectivity of the output-path naming scheme -/

theorem string_append_left_cancel {a b c : String} (h : a ++ b = a ++ c) : b = c := by
  apply String.ext
  have hd : a.data ++ b.data = a.data ++ c.data := by
    have := congrArg String.data h
    simpa using this
  exact List.append_cancel_left hd

theorem pathJoin_inj (dir : String) {n₁ n₂ : String}
    (h : pathJoin dir n₁ = pathJoin dir n₂) : n₁ = n₂ := by
  unfold pathJoin at h
  by_cases h1 : dir = "."
  · simpa [h1] using h
  · by_cases h2 : dir = "/"
    · rw [if_neg h1, if_pos h2, if_neg h1, if_pos h2] at h
      exact string_append_left_cancel h
    · rw [if_neg h1, if_neg h2, if_neg h1, if_neg h2] at h
      exact string_append_left_cancel h

theorem get_output_path_inj {f s₁ e₁ s₂ e₂ : String} (he : e₁.length = e₂.length)
    (h : get_output_path f s₁ e₁ = get_output_path f s₂ e₂) : s₁ = s₂ ∧ e₁ = e₂ := by
  unfold get_output_path at h
  have h2 := pathJoin_inj _ h
  have hd : (pathStem f).data ++ (s₁.data ++ ('.' :: e₁.data)) =
      (pathStem f).data ++ (s₂.data ++ ('.' :: e₂.data)) := by
    have := congrArg String.data h2
    simpa [List.append_assoc] using this
  have hd2 : s₁.data ++ ('.' :: e₁.data) = s₂.data ++ ('.' :: e₂.data) :=
    List.append_cancel_left hd
  have hlen : ('.' :: e₁.data).length = ('.' :: e₂.data).length := by
    simp only [List.length_cons]
    exact congrArg (· + 1) he
  obtain ⟨hs, he'⟩ := List.append_inj' hd2 hlen
  exact ⟨String.ext hs, String.ext (by simpa using he')⟩

theorem get_output_path_ne_of_suffix_length {f s₁ e₁ s₂ e₂ : String}
    (he : e₁.length = e₂.length) (hs : s₁.length ≠ s₂.length) :
    get_output_path f s₁ e₁ ≠ get_output_path f s₂ e₂ := by
  intro h
  obtain ⟨hseq, _⟩ := get_output_path_inj he h
  exact hs (by rw [hseq])

theorem get_output_path_ne_of_ext {f s₁ e₁ s₂ e₂ : String}
    (he : e₁.length = e₂.length) (hne : e₁ ≠ e₂) :
    get_output_path f s₁ e₁ ≠ get_output_path f s₂ e₂ := by
  intro h
  exact hne (get_output_path_inj he h).2

theorem string_length_append (a b : String) : (a ++ b).length = a.length + b.length := by
  show (a ++ b).data.length = a.data.length + b.data.length
  simp

/-! ## The renderer invocations of the output planner -/

theorem calls_renderTxtStep (tc : Option Nat) (env : Env) (text p : String) (st : WState) :
    callsOf ((renderTxtStep tc env text p st).2).events =
      callsOf st.events ++ [.renderTxt p] := by
  simp [renderTxtStep, update_status_events]

theorem calls_renderSrtStep (tc : Option Nat) (env : Env) (segs : List Segment) (p : String)
    (st : WState) :
    callsOf ((renderSrtStep tc env segs p st).2).events =
      callsOf st.events ++ [.renderSrt p] := by
  simp [renderSrtStep, update_status_events]

theorem calls_renderPdfStep (tc : Option Nat) (env : Env) (segs : List Segment)
    (title : String) (ft sm : Option String) (p : String) (st : WState) :
    callsOf ((renderPdfStep tc env segs title ft sm p st).2).events =
      callsOf st.events ++ [.renderPdf p] := by
  simp [renderPdfStep, update_status_events]

theorem calls_condRenderTxt (tc : Option Nat) (env : Env) (data : Option String) (p : String)
    (acc : List String × WState) :
    callsOf ((condRenderTxt tc env data p acc).2).events =
      callsOf acc.2.events ++ (if strTruthy data then [.renderTxt p] else []) := by
  cases data with
  | none => simp [condRenderTxt, strTruthy]
  | some s =>
    by_cases h : s = "" <;>
      simp [condRenderTxt, strTruthy, h, calls_renderTxtStep]

theorem calls_condRenderSrt (tc : Option Nat) (env : Env) (data : Option (List Segment))
    (p : String) (acc : List String × WState) :
    callsOf ((condRenderSrt tc env data p acc).2).events =
      callsOf acc.2.events ++ (if listTruthy data then [.renderSrt p] else []) := by
  cases data with
  | none => simp [condRenderSrt, listTruthy]
  | some l =>
    by_cases h : l.isEmpty <;>
      simp [condRenderSrt, listTruthy, h, calls_renderSrtStep]

theorem calls_condRenderPdf (tc : Option Nat) (env : Env) (data : Option (List Segment))
    (title : String) (ft sm : Option String) (p : String) (acc : List String × WState) :
    callsOf ((condRenderPdf tc env data title ft sm p acc).2).events =
      callsOf acc.2.events ++ (if listTruthy data then [.renderPdf p] else []) := by
  cases data with
  | none => simp [condRenderPdf, listTruthy]
  | some l =>
    by_cases h : l.isEmpty <;>
      simp [condRenderPdf, listTruthy, h, calls_renderPdfStep]

theorem calls_txtOutputs (tc : Option Nat) (env : Env) (cfg : Config) (tt : String)
    (sm tr ts : Option String) (acc : List String × WState) :
    callsOf ((txtOutputs tc env cfg tt sm tr ts acc).2).events =
      callsOf acc.2.events ++
        (if cfg.output_formats.contains "txt" then
          [.renderTxt (get_output_path cfg.file_path "" "txt")]
          ++ (if strTruthy sm then
              [.renderTxt (get_output_path cfg.file_path "_summary" "txt")] else [])
          ++ (if strTruthy tr then
              [.renderTxt (get_output_path cfg.file_path ("_" ++ cfg.target_language) "txt")]
             else [])
          ++ (if strTruthy ts then
              [.renderTxt (get_output_path cfg.file_path
                ("_summary_" ++ cfg.target_language) "txt")] else [])
        else []) := by
  by_cases h : "txt" ∈ cfg.output_formats <;>
    simp [txtOutputs, h, calls_condRenderTxt, calls_renderTxtStep]

theorem calls_srtOutputs (tc : Option Nat) (env : Env) (cfg : Config) (segs : List Segment)
    (tsegs : Option (List Segment)) (acc : List String × WState) :
    callsOf ((srtOutputs tc env cfg segs tsegs acc).2).events =
      callsOf acc.2.events ++
        (if cfg.output_formats.contains "srt" then
          [.renderSrt (get_output_path cfg.file_path "" "srt")]
          ++ (if listTruthy tsegs then
              [.renderSrt (get_output_path cfg.file_path ("_" ++ cfg.target_language) "srt")]
             else [])
        else []) := by
  by_cases h : "srt" ∈ cfg.output_formats <;>
    simp [srtOutputs, h, calls_condRenderSrt, calls_renderSrtStep]

theorem calls_pdfOutputs (tc : Option Nat) (env : Env) (cfg : Config) (tt : String)
    (segs : List Segment) (sm tr ts : Option String) (tsegs : Option (List Segment))
    (acc : List String × WState) :
    callsOf ((pdfOutputs tc env cfg tt segs sm tr ts tsegs acc).2).events =
      callsOf acc.2.events ++
        (if cfg.output_formats.contains "pdf" then
          [.renderPdf (get_output_path cfg.file_path "_transcript" "pdf")]
          ++ (if listTruthy tsegs then
              [.renderPdf (get_output_path cfg.file_path
                ("_transcript_" ++ cfg.target_language) "pdf")] else [])
        else []) := by
  by_cases h : "pdf" ∈ cfg.output_formats <;>
    simp [pdfOutputs, h, calls_condRenderPdf, calls_renderPdfStep]

theorem calls_create_output_files (tc : Option Nat) (env : Env) (cfg : Config) (tt : String)
    (segs : List Segment) (sm tr ts : Option String) (tsegs : Option (List Segment))
    (st : WState) :
    callsOf ((create_output_files tc env cfg tt segs sm tr ts tsegs st).2).events =
      callsOf st.events ++ plannedRenderCalls cfg sm tr ts tsegs := by
  rw [create_output_files, calls_pdfOutputs, calls_srtOutputs, calls_txtOutputs,
    plannedRenderCalls]
  simp [List.append_assoc]

/-! ## Claim C7 -/

/-- C7: for every input file path, variant and format, the planner's output
path is the input's parent directory joined with the input's stem plus the
variant suffix plus `.` and the format extension; the renderer invocations
of `_create_output_files` are exactly the planned calls built from the
suffix table (`""`, `_summary`, `_{lang}`, `_summary_{lang}` for text;
`""`, `_{lang}` for subtitles; `_transcript`, `_transcript_{lang}` for
documents); and the translated document is attempted only when translated
segments were produced (a truthy translated segment list). -/
theorem C7_output_path_naming :
    (∀ f s e : String, get_output_path f s e =
      pathJoin (pathParent f) (pathStem f ++ s ++ "." ++ e)) ∧
    (∀ (tc : Option Nat) (env : Env) (cfg : Config) (tt : String) (segs : List Segment)
      (sm tr ts : Option String) (tsegs : Option (List Segment)) (st : WState),
      callsOf ((create_output_files tc env cfg tt segs sm tr ts tsegs st).2).events =
        callsOf st.events ++ plannedRenderCalls cfg sm tr ts tsegs) ∧
    (∀ (cfg : Config) (sm tr ts : Option String) (tsegs : Option (List Segment)),
      listTruthy tsegs = false →
      RCall.renderPdf (get_output_path cfg.file_path
          ("_transcript_" ++ cfg.target_language) "pdf")
        ∉ plannedRenderCalls cfg sm tr ts tsegs) := by
  refine ⟨fun f s e => rfl, calls_create_output_files, ?_⟩
  intro cfg sm tr ts tsegs hf hmem
  have hne : get_output_path cfg.file_path "_transcript" "pdf" ≠
      get_output_path cfg.file_path ("_transcript_" ++ cfg.target_language) "pdf" := by
    apply get_output_path_ne_of_suffix_length rfl
    rw [string_length_append]
    have e1 : ("_transcript" : String).length = 11 := by decide
    have e2 : ("_transcript_" : String).length = 12 := by decide
    omega
  rw [plannedRenderCalls] at hmem
  by_cases h1 : cfg.output_formats.contains "txt" <;>
    by_cases h2 : cfg.output_formats.contains "srt" <;>
      by_cases h3 : cfg.output_formats.contains "pdf" <;>
        by_cases h4 : strTruthy sm <;>
          by_cases h5 : strTruthy tr <;>
            by_cases h6 : strTruthy ts <;>
              simp_all

/-- Witness for C7's conditional part at a concrete config with no
translated segments. -/
theorem C7_witness :
    listTruthy (none : Option (List Segment)) = false ∧
    RCall.renderPdf (get_output_path "a/b.mp4" ("_transcript_" ++ "ko") "pdf")
      ∉ plannedRenderCalls ⟨"a/b.mp4", "base", none, ["txt", "srt", "pdf"], true, 0, true, "ko"⟩
        (some "s") (some "t") (some "u") none :=
  ⟨rfl, C7_output_path_naming.2.2
    ⟨"a/b.mp4", "base", none, ["txt", "srt", "pdf"], true, 0, true, "ko"⟩
    (some "s") (some "t") (some "u") none rfl⟩

/-! ## Claim C6 -/

theorem string_length_empty : ("" : String).length = 0 := by decide

theorem string_length_underscore : ("_" : String).length = 1 := by decide

theorem string_length_usummary : ("_summary_" : String).length = 9 := by decide

theorem string_length_transcript : ("_transcript" : String).length = 11 := by decide

theorem string_length_transcript_u : ("_transcript_" : String).length = 12 := by decide

/-- C6: with formats `{txt, srt, pdf}`, summary and translation enabled, and
every collaborator and renderer call succeeding on non-empty data, the run
completes successfully with exactly the eight planned output paths — all
variant/format combinations (text: original, summary, translated,
translated summary; subtitle: original, translated; document: original,
translated), each named by the suffix rule — and at least seven of them are
pairwise distinct paths whatever the input file name and target language. -/
theorem C6_all_variant_format_files :
    ∀ (cfg : Config) (env : Env) (tr : TranscriptionResult) (sum ttext tsum : String),
      cfg.output_formats.contains "txt" = true →
      cfg.output_formats.contains "srt" = true →
      cfg.output_formats.contains "pdf" = true →
      cfg.enable_summary = true → cfg.enable_translation = true →
      env.loadOk = true → env.transcribeRes = some tr → tr.segments ≠ [] →
      env.summarizeRes tr.text = some sum → sum ≠ "" →
      translate_text env.api tr.text = some ttext → ttext ≠ "" →
      translate_text env.api sum = some tsum → tsum ≠ "" →
      (∀ p, env.renderTxtOk p = true) → (∀ p, env.renderSrtOk p = true) →
      (∀ p, env.renderPdfOk p = true) →
      finishedEvents (run cfg env none).events =
        [(true, .result (RunResult.mk (some tr) (some sum)
          (some (TranslationBundle.mk (some ttext) (some tsum)
            (some (tr.segments.map (translateSegment env.api)))))
          [get_output_path cfg.file_path "" "txt",
           get_output_path cfg.file_path "_summary" "txt",
           get_output_path cfg.file_path ("_" ++ cfg.target_language) "txt",
           get_output_path cfg.file_path ("_summary_" ++ cfg.target_language) "txt",
           get_output_path cfg.file_path "" "srt",
           get_output_path cfg.file_path ("_" ++ cfg.target_language) "srt",
           get_output_path cfg.file_path "_transcript" "pdf",
           get_output_path cfg.file_path ("_transcript_" ++ cfg.target_language) "pdf"]))] ∧
      ([get_output_path cfg.file_path "" "txt",
        get_output_path cfg.file_path ("_" ++ cfg.target_language) "txt",
        get_output_path cfg.file_path ("_summary_" ++ cfg.target_language) "txt",
        get_output_path cfg.file_path "" "srt",
        get_output_path cfg.file_path ("_" ++ cfg.target_language) "srt",
        get_output_path cfg.file_path "_transcript" "pdf",
        get_output_path cfg.file_path ("_transcript_" ++ cfg.target_language) "pdf"] :
        List String).Nodup := by
  intro cfg env tr sum ttext tsum h1 h2 h3 h4 h5 h6 h7 h8 h9 h10 h11 h12 h13 h14 h15 h16 h17
  have hm1 : "txt" ∈ cfg.output_formats := by simpa using h1
  have hm2 : "srt" ∈ cfg.output_formats := by simpa using h2
  have hm3 : "pdf" ∈ cfg.output_formats := by simpa using h3
  have h8' : tr.segments.isEmpty = false := by
    cases hsg : tr.segments with
    | nil => exact absurd hsg h8
    | cons a l => rfl
  constructor
  · simp [run, summarizeStage, translateStage, outputStage, create_output_files,
      txtOutputs, srtOutputs, pdfOutputs, condRenderTxt, condRenderSrt, condRenderPdf,
      renderTxtStep, renderSrtStep, renderPdfStep, update_progress_events,
      update_status_events, strTruthy, listTruthy, translate_segments,
      h4, h5, h6, h7, h8, h8', h9, h10, h11, h12, h13, h14, h15, h16, h17,
      hm1, hm2, hm3, isCancelled]
  · have eTxtSrt : ("txt" : String) ≠ "srt" := by decide
    have eTxtPdf : ("txt" : String) ≠ "pdf" := by decide
    have eSrtPdf : ("srt" : String) ≠ "pdf" := by decide
    simp only [List.nodup_cons, List.mem_cons, List.not_mem_nil, or_false, not_or,
      List.nodup_nil, and_true]
    repeat' apply And.intro
    all_goals first
      | exact not_false
      | exact get_output_path_ne_of_ext rfl (by decide)
      | (apply get_output_path_ne_of_suffix_length rfl
         simp only [string_length_append, string_length_empty, string_length_underscore,
           string_length_usummary, string_length_transcript, string_length_transcript_u]
         omega)

/-- Witness for C6 at the concrete sample JobRequest and all-success
oracle. -/
theorem C6_witness :
    sampleC6cfg.output_formats.contains "txt" = true ∧
    sampleC6cfg.output_formats.contains "srt" = true ∧
    sampleC6cfg.output_formats.contains "pdf" = true ∧
    sampleC6cfg.enable_summary = true ∧
    sampleC6cfg.enable_translation = true ∧
    sampleC6env.loadOk = true ∧
    sampleC6env.transcribeRes = some sampleC6tr ∧
    sampleC6tr.segments ≠ [] ∧
    sampleC6env.summarizeRes sampleC6tr.text = some "summary text" ∧
    ("summary text" : String) ≠ "" ∧
    translate_text sampleC6env.api sampleC6tr.text = some "Kfull text" ∧
    ("Kfull text" : String) ≠ "" ∧
    translate_text sampleC6env.api "summary text" = some "Ksummary text" ∧
    ("Ksummary text" : String) ≠ "" ∧
    finishedEvents (run sampleC6cfg sampleC6env none).events =
      [(true, .result (RunResult.mk (some sampleC6tr) (some "summary text")
        (some (TranslationBundle.mk (some "Kfull text") (some "Ksummary text")
          (some (sampleC6tr.segments.map (translateSegment sampleC6env.api)))))
        [get_output_path sampleC6cfg.file_path "" "txt",
         get_output_path sampleC6cfg.file_path "_summary" "txt",
         get_output_path sampleC6cfg.file_path ("_" ++ sampleC6cfg.target_language) "txt",
         get_output_path sampleC6cfg.file_path
           ("_summary_" ++ sampleC6cfg.target_language) "txt",
         get_output_path sampleC6cfg.file_path "" "srt",
         get_output_path sampleC6cfg.file_path ("_" ++ sampleC6cfg.target_language) "srt",
         get_output_path sampleC6cfg.file_path "_transcript" "pdf",
         get_output_path sampleC6cfg.file_path
           ("_transcript_" ++ sampleC6cfg.target_language) "pdf"]))] ∧
    ([get_output_path sampleC6cfg.file_path "" "txt",
      get_output_path sampleC6cfg.file_path ("_" ++ sampleC6cfg.target_language) "txt",
      get_output_path sampleC6cfg.file_path
        ("_summary_" ++ sampleC6cfg.target_language) "txt",
      get_output_path sampleC6cfg.file_path "" "srt",
      get_output_path sampleC6cfg.file_path ("_" ++ sampleC6cfg.target_language) "srt",
      get_output_path sampleC6cfg.file_path "_transcript" "pdf",
      get_output_path sampleC6cfg.file_path
        ("_transcript_" ++ sampleC6cfg.target_language) "pdf"] : List String).Nodup :=
  ⟨by decide, by decide, by decide, by decide, by decide, by decide, by decide, by decide,
    by decide, by decide, by decide, by decide, by decide, by decide,
    (C6_all_variant_format_files sampleC6cfg sampleC6env sampleC6tr
      "summary text" "Kfull text" "Ksummary text"
      (by decide) (by decide) (by decide) (by decide) (by decide) (by decide) (by decide)
      (by decide) (by decide) (by decide) (by decide) (by decide) (by decide) (by decide)
      (fun p => rfl) (fun p => rfl) (fun p => rfl)).1,
    (C6_all_variant_format_files sampleC6cfg sampleC6env sampleC6tr
      "summary text" "Kfull text" "Ksummary text"
      (by decide) (by decide) (by decide) (by decide) (by decide) (by decide) (by decide)
      (by decide) (by decide) (by decide) (by decide) (by decide) (by decide) (by decide)
      (fun p => rfl) (fun p => rfl) (fun p => rfl)).2⟩

/-! ## Claim C3 -/

theorem translateSegment_start (api : String → Option String) (s : Segment) :
    (translateSegment api s).start = s.start := by
  unfold translateSegment
  split
  · split <;> rfl
  · rfl

theorem translateSegment_stop (api : String → Option String) (s : Segment) :
    (translateSegment api s).stop = s.stop := by
  unfold translateSegment
  split
  · split <;> rfl
  · rfl

theorem translateSegment_text_some {api : String → Option String} {s : Segment} {t : String}
    (h : translate_text api (pyStrip s.text) = some t) :
    (translateSegment api s).text = t := by
  by_cases he : s.text = ""
  · rw [he] at h
    simp [pyStrip, translate_text] at h
  · simp only [translateSegment, ne_eq, he, not_false_iff, if_true, h]

theorem translateSegment_text_none {api : String → Option String} {s : Segment}
    (h : translate_text api (pyStrip s.text) = none) :
    (translateSegment api s).text = s.text := by
  by_cases he : s.text = "" <;> simp [translateSegment, he, h]

/-- C3: for every non-empty segment sequence, segment translation returns a
sequence of the same length and order, every segment keeps its original
start and end times, each segment's text is the translated text when
translation of that segment's (stripped) text succeeds and the original
text unchanged when it fails, and the outcome at each position depends only
on that segment (so one segment's failure does not affect the others). -/
theorem C3_translate_segments_preserves_structure :
    ∀ (api : String → Option String) (segs : List Segment), segs ≠ [] →
    ∃ out, translate_segments api segs = some out ∧
      out.length = segs.length ∧
      ∀ (i : Nat) (hi : i < segs.length) (ho : i < out.length),
        (out.get ⟨i, ho⟩).start = (segs.get ⟨i, hi⟩).start ∧
        (out.get ⟨i, ho⟩).stop = (segs.get ⟨i, hi⟩).stop ∧
        (∀ t, translate_text api (pyStrip (segs.get ⟨i, hi⟩).text) = some t →
          (out.get ⟨i, ho⟩).text = t) ∧
        (translate_text api (pyStrip (segs.get ⟨i, hi⟩).text) = none →
          (out.get ⟨i, ho⟩).text = (segs.get ⟨i, hi⟩).text) := by
  intro api segs h
  refine ⟨segs.map (translateSegment api), by simp [translate_segments, h], by simp, ?_⟩
  intro i hi ho
  have hget : (segs.map (translateSegment api)).get ⟨i, ho⟩ =
      translateSegment api (segs.get ⟨i, hi⟩) := by
    simp [List.get_eq_getElem]
  rw [hget]
  exact ⟨translateSegment_start api _, translateSegment_stop api _,
    fun t htt => translateSegment_text_some htt,
    fun hn => translateSegment_text_none hn⟩

/-- Witness for C3: a two-segment list where the first segment translates
and the second (whitespace text) fails, under a concrete API. -/
theorem C3_witness :
    ([⟨0, 1, "hi"⟩, ⟨1, 2, " "⟩] : List Segment) ≠ [] ∧
    ∃ out, translate_segments (fun s => if s = "hi" then some "bonjour" else none)
        [⟨0, 1, "hi"⟩, ⟨1, 2, " "⟩] = some out ∧
      out.length = ([⟨0, 1, "hi"⟩, ⟨1, 2, " "⟩] : List Segment).length ∧
      ∀ (i : Nat) (hi : i < ([⟨0, 1, "hi"⟩, ⟨1, 2, " "⟩] : List Segment).length)
        (ho : i < out.length),
        (out.get ⟨i, ho⟩).start =
          (([⟨0, 1, "hi"⟩, ⟨1, 2, " "⟩] : List Segment).get ⟨i, hi⟩).start ∧
        (out.get ⟨i, ho⟩).stop =
          (([⟨0, 1, "hi"⟩, ⟨1, 2, " "⟩] : List Segment).get ⟨i, hi⟩).stop ∧
        (∀ t, translate_text (fun s => if s = "hi" then some "bonjour" else none)
            (pyStrip (([⟨0, 1, "hi"⟩, ⟨1, 2, " "⟩] : List Segment).get ⟨i, hi⟩).text) = some t →
          (out.get ⟨i, ho⟩).text = t) ∧
        (translate_text (fun s => if s = "hi" then some "bonjour" else none)
            (pyStrip (([⟨0, 1, "hi"⟩, ⟨1, 2, " "⟩] : List Segment).get ⟨i, hi⟩).text) = none →
          (out.get ⟨i, ho⟩).text =
            (([⟨0, 1, "hi"⟩, ⟨1, 2, " "⟩] : List Segment).get ⟨i, hi⟩).text) :=
  ⟨by decide, C3_translate_segments_preserves_structure
    (fun s => if s = "hi" then some "bonjour" else none) [⟨0, 1, "hi"⟩, ⟨1, 2, " "⟩]
    (by decide)⟩

end WhisperApp
